import Mathlib

/-!
Verification of the Breast Cancer Risk Prediction app (`src/app.py`).

The program has two data paths:
* a form encoder that turns widget selections into a single-row, 11-column
  feature table (`input_df`, app.py lines 143-155), translating label-valued
  selections through three lookup tables (lines 91, 98, 110);
* a batch predictor that parses an uploaded CSV, runs the opaque pipeline's
  `predict` / `predict_proba`, appends `prediction`, `risk_label` and
  `confidence` columns, writes the result to `unknown_predictions.csv` and
  offers the same serialization for download (lines 185-220), the whole path
  wrapped in one `try/except` that shows "❌ CSV Error: {e}".

The serialized pipeline `xgb_pipeline.pkl` is an external artifact; it is
modelled as an abstract `BatchModel` whose `predict`/`predict_proba` either
return a value per row or raise (modelled as `Except String`).
-/

namespace BreastCancerApp

/-! ## Form encoder (app.py lines 66-155) -/

/-- Widget options of the "Age at Menarche" selectbox (line 89). -/
def age_menarche_options : List String := ["Late", "Early", "Normal"]

/-- The dict `age_menarche_map = {"Late": 0, "Early": 1, "Normal": 2}` (line 91),
as an association list; `dict[label]` is `List.lookup label`, `none` standing
for a raised `KeyError`. -/
def age_menarche_map : List (String × Int) :=
  [("Late", 0), ("Early", 1), ("Normal", 2)]

/-- Widget options of the "Age at First Birth" selectbox (line 96). -/
def age_first_birth_options : List String := ["Early", "Normal", "Late", "Very Late"]

/-- The dict `age_first_birth_map` (lines 98-103). -/
def age_first_birth_map : List (String × Int) :=
  [("Early", 1), ("Normal", 2), ("Late", 3), ("Very Late", 4)]

/-- Widget options of the "Menopause Status" selectbox (line 108). -/
def menopaus_options : List String := ["Pre", "Post", "Peri"]

/-- The dict `menopaus_map = {"Pre": 1, "Post": 2, "Peri": 3}` (line 110). -/
def menopaus_map : List (String × Int) :=
  [("Pre", 1), ("Post", 2), ("Peri", 3)]

/-- The fixed column names of the assembled Feature Record, in the order the
`pd.DataFrame` literal lists them (lines 143-155). -/
def featureColumns : List String :=
  ["year", "age_group_5_years", "race_eth", "first_degree_hx", "age_menarche",
   "age_first_birth", "BIRADS_breast_density", "current_hrt", "menopaus",
   "bmi_group", "biophx"]

/-- The assembled one-row input table (app.py lines 143-155): the three label
selections are translated through their dicts (lines 92, 104, 111, each a
possible `KeyError`, hence `Option`), the integer selections pass through, and
the row is laid out as the 11 named columns in source order. -/
def input_df (year age_group race_eth first_degree_hx biophx : Int)
    (age_menarche_label age_first_birth_label menopaus_label : String)
    (birads_density current_hrt bmi_group : Int) :
    Option (List (String × Int)) := do
  let age_menarche ← List.lookup age_menarche_label age_menarche_map
  let age_first_birth ← List.lookup age_first_birth_label age_first_birth_map
  let menopaus ← List.lookup menopaus_label menopaus_map
  pure [("year", year),
        ("age_group_5_years", age_group),
        ("race_eth", race_eth),
        ("first_degree_hx", first_degree_hx),
        ("age_menarche", age_menarche),
        ("age_first_birth", age_first_birth),
        ("BIRADS_breast_density", birads_density),
        ("current_hrt", current_hrt),
        ("menopaus", menopaus),
        ("bmi_group", bmi_group),
        ("biophx", biophx)]

/-! ## Single-record predictor (app.py lines 161-173) -/

/-- The risk category the single-record path displays (lines 167-170):
`if pred == 1:` show the High-Risk message, `else:` the Low-Risk message. -/
def singleRecordLabel (pred : Int) : String :=
  if pred = 1 then "High Risk" else "Low Risk"

/-- The exact message string shown for a single-record prediction
(lines 167-170). -/
def singleRecordMessage (pred : Int) : String :=
  if pred = 1 then "⚠️ High Risk of Breast Cancer"
  else "✅ Low Risk of Breast Cancer"

/-! ## Batch predictor (app.py lines 185-220)

A pandas DataFrame is modelled as its ordered list of named columns, each
column a list of cells. Cells are integers, strings, rationals (for the
probabilities/confidence; pandas floats modelled as `ℚ`) or `NaN`. -/

/-- A cell of a DataFrame. `na` is pandas `NaN`. -/
inductive Value
  | int : Int → Value
  | str : String → Value
  | rat : ℚ → Value
  | na : Value
deriving DecidableEq, Repr

/-- A DataFrame: ordered named columns of cells. -/
structure DataFrame where
  cols : List (String × List Value)
deriving DecidableEq, Repr

/-- The ordered column names. -/
def DataFrame.columns (df : DataFrame) : List String := df.cols.map Prod.fst

/-- Number of rows (length of the first column; pandas keeps columns equal
length). -/
def DataFrame.nrows (df : DataFrame) : Nat :=
  match df.cols with
  | [] => 0
  | c :: _ => c.2.length

/-- `df[name]`: the first column with that name, as pandas column selection
reads it. -/
def DataFrame.col (df : DataFrame) (name : String) : Option (List Value) :=
  List.lookup name df.cols

/-- `df[name] = vals`: pandas column assignment overwrites an existing column
in place, otherwise appends a new column at the end. -/
def DataFrame.assign (df : DataFrame) (name : String) (vals : List Value) : DataFrame :=
  if name ∈ df.columns then
    ⟨df.cols.map fun c => if c.1 = name then (name, vals) else c⟩
  else
    ⟨df.cols ++ [(name, vals)]⟩

/-- One cell rendered by `to_csv`: `NaN` renders empty. -/
def Value.toCsvString : Value → String
  | .int i => toString i
  | .str s => s
  | .rat q => toString q
  | .na => ""

/-- `df.to_csv(index=False)`: the header line of column names, then one
comma-separated line per row, no index column. -/
def DataFrame.toCsv (df : DataFrame) : String :=
  String.intercalate "," df.columns ++ "\n" ++
    String.join ((List.range df.nrows).map fun i =>
      String.intercalate ","
        (df.cols.map fun c => (c.2.getD i Value.na).toCsvString) ++ "\n")

/-- The dict `{0: "Low Risk", 1: "High Risk"}` of line 201, as an association
list. -/
def riskLabelDict : List (Int × String) :=
  [(0, "Low Risk"), (1, "High Risk")]

/-- `Series.map` with `riskLabelDict` applied to one prediction value: an
unmapped value becomes pandas `NaN` (line 200-202). -/
def mapRiskLabel (p : Int) : Value :=
  match List.lookup p riskLabelDict with
  | some s => Value.str s
  | none => Value.na

/-- `probs.max(axis=1)` applied to one row's probability pair (line 203). -/
def rowConfidence (pr : ℚ × ℚ) : ℚ := max pr.1 pr.2

/-- The opaque pipeline `xgb_pipeline.pkl`, abstracted: `predict` yields one
integer label per row and `predict_proba` one probability pair per row; either
call may raise, modelled as `Except String` with the exception stringified. -/
structure BatchModel where
  predict : DataFrame → Except String (List Int)
  predict_proba : DataFrame → Except String (List (ℚ × ℚ))

/-- Observable side effects of the batch path. -/
inductive Effect
  | writeFile : String → String → Effect
  | showTable : DataFrame → Effect
  | downloadButton : String → String → Effect
deriving DecidableEq

/-- The "📊 Predict CSV" branch (lines 194-216): run `predict` then
`predict_proba` (lines 196-197, either may raise), then assign the three new
columns `prediction`, `risk_label` (mapping the just-assigned prediction
column through `riskLabelDict`), `confidence` (lines 199-203), write the table
to `unknown_predictions.csv` without index (line 205), display it (line 209)
and offer the same `to_csv(index=False)` serialization for download
(lines 211-216). On a raise nothing is assigned and nothing written. -/
def predictCsvBranch (m : BatchModel) (csv_df : DataFrame) :
    Except String (DataFrame × List Effect) := do
  let preds ← m.predict csv_df
  let probs ← m.predict_proba csv_df
  let df1 := csv_df.assign "prediction" (preds.map Value.int)
  let df2 := df1.assign "risk_label" (preds.map mapRiskLabel)
  let df3 := df2.assign "confidence" (probs.map fun pr => Value.rat (rowConfidence pr))
  pure (df3,
    [Effect.writeFile "unknown_predictions.csv" df3.toCsv,
     Effect.showTable df3,
     Effect.downloadButton "unknown_predictions.csv" df3.toCsv])

/-- Everything inside the `try:` of lines 186-216: CSV parsing (line 187,
result abstracted as an `Except`) followed by the predict branch. -/
def batchPipeline (m : BatchModel) (parseResult : Except String DataFrame) :
    Except String (DataFrame × List Effect) := do
  let csv_df ← parseResult
  predictCsvBranch m csv_df

/-- What the user sees from the batch path: either the augmented table with
its effects, or one error message. -/
inductive UIOutcome
  | results : DataFrame → List Effect → UIOutcome
  | errorMessage : String → UIOutcome
deriving DecidableEq

/-- The whole guarded batch path: the single `except Exception as e` handler
of lines 219-220 turns any exception of the pipeline into the message
`f"❌ CSV Error: {e}"`. -/
def runPredictCsv (m : BatchModel) (parseResult : Except String DataFrame) :
    UIOutcome :=
  match batchPipeline m parseResult with
  | .ok (df, effs) => .results df effs
  | .error e => .errorMessage ("❌ CSV Error: " ++ e)

/-! ## Helper lemmas on column lookup and assignment -/

lemma lookup_cons_self {β : Type} (k : String) (v : β) (t : List (String × β)) :
    List.lookup k ((k, v) :: t) = some v := by
  simp [List.lookup]

lemma lookup_cons_ne {β : Type} (k k' : String) (v : β) (t : List (String × β))
    (h : k ≠ k') :
    List.lookup k ((k', v) :: t) = List.lookup k t := by
  have hb : (k == k') = false := beq_eq_false_iff_ne.mpr h
  simp [List.lookup, hb]

lemma lookup_replace {β : Type} (l : List (String × β)) (n : String) (v : β)
    (h : n ∈ l.map Prod.fst) :
    List.lookup n (l.map fun c => if c.1 = n then (n, v) else c) = some v := by
  induction l with
  | nil => simp at h
  | cons a t ih =>
    simp only [List.map_cons]
    by_cases ha : a.1 = n
    · rw [if_pos ha]
      exact lookup_cons_self n v _
    · rw [if_neg ha]
      have hh : (a.1, a.2) = a := rfl
      rw [← hh, lookup_cons_ne n a.1 a.2 _ (fun hh2 => ha hh2.symm)]
      apply ih
      simp only [List.map_cons, List.mem_cons] at h
      exact h.resolve_left (fun hh2 => ha hh2.symm)

lemma lookup_append_self {β : Type} (l : List (String × β)) (n : String) (v : β)
    (h : n ∉ l.map Prod.fst) :
    List.lookup n (l ++ [(n, v)]) = some v := by
  induction l with
  | nil => simp only [List.nil_append]; exact lookup_cons_self n v []
  | cons a t ih =>
    simp only [List.map_cons, List.mem_cons, not_or] at h
    have hh : (a.1, a.2) = a := rfl
    rw [List.cons_append, ← hh, lookup_cons_ne n a.1 a.2 _ h.1]
    exact ih h.2

lemma lookup_map_keep {β : Type} (l : List (String × β)) (n n' : String) (v : β)
    (h : n ≠ n') :
    List.lookup n (l.map fun c => if c.1 = n' then (n', v) else c) =
      List.lookup n l := by
  induction l with
  | nil => simp
  | cons a t ih =>
    simp only [List.map_cons]
    have hh : (a.1, a.2) = a := rfl
    by_cases ha : a.1 = n'
    · rw [if_pos ha, lookup_cons_ne n n' v _ h, ← hh,
        lookup_cons_ne n a.1 a.2 _ (ha ▸ h), ih]
    · by_cases hna : n = a.1
      · rw [if_neg ha, ← hh, ← hna]
        rw [lookup_cons_self, lookup_cons_self]
      · rw [if_neg ha, ← hh, lookup_cons_ne n a.1 a.2 _ hna,
          lookup_cons_ne n a.1 a.2 _ hna, ih]

lemma lookup_append_keep {β : Type} (l : List (String × β)) (n n' : String) (v : β)
    (h : n ≠ n') :
    List.lookup n (l ++ [(n', v)]) = List.lookup n l := by
  induction l with
  | nil => simpa using lookup_cons_ne n n' v [] h
  | cons a t ih =>
    have hh : (a.1, a.2) = a := rfl
    by_cases hna : n = a.1
    · rw [List.cons_append, ← hh, ← hna, lookup_cons_self, lookup_cons_self]
    · rw [List.cons_append, ← hh, lookup_cons_ne n a.1 a.2 _ hna,
        lookup_cons_ne n a.1 a.2 _ hna, ih]

/-- Assigning a column then reading it back yields the assigned cells. -/
lemma col_assign_self (df : DataFrame) (n : String) (v : List Value) :
    (df.assign n v).col n = some v := by
  unfold DataFrame.assign DataFrame.col
  by_cases h : n ∈ df.columns
  · simp only [if_pos h]
    exact lookup_replace df.cols n v h
  · simp only [if_neg h]
    exact lookup_append_self df.cols n v h

/-- Assigning one column leaves every other column's cells unchanged. -/
lemma col_assign_ne (df : DataFrame) (n n' : String) (v : List Value)
    (h : n ≠ n') :
    (df.assign n' v).col n = df.col n := by
  unfold DataFrame.assign DataFrame.col
  by_cases hmem : n' ∈ df.columns
  · simp only [if_pos hmem]
    exact lookup_map_keep df.cols n n' v h
  · simp only [if_neg hmem]
    exact lookup_append_keep df.cols n n' v h

/-- Assigning a fresh column name appends it at the end. -/
lemma assign_cols_of_not_mem (df : DataFrame) (n : String) (v : List Value)
    (h : n ∉ df.columns) :
    (df.assign n v).cols = df.cols ++ [(n, v)] := by
  unfold DataFrame.assign
  simp [if_neg h]

/-- The augmented table the Predict-CSV branch builds (lines 199-203). -/
def augmentedDf (csv_df : DataFrame) (preds : List Int) (probs : List (ℚ × ℚ)) :
    DataFrame :=
  ((csv_df.assign "prediction" (preds.map Value.int)).assign
      "risk_label" (preds.map mapRiskLabel)).assign
    "confidence" (probs.map fun pr => Value.rat (rowConfidence pr))

/-- The effects the Predict-CSV branch emits on success (lines 205-216). -/
def branchEffects (out : DataFrame) : List Effect :=
  [Effect.writeFile "unknown_predictions.csv" out.toCsv,
   Effect.showTable out,
   Effect.downloadButton "unknown_predictions.csv" out.toCsv]

lemma predictCsvBranch_ok (m : BatchModel) (df : DataFrame)
    (preds : List Int) (probs : List (ℚ × ℚ))
    (hp : m.predict df = .ok preds) (hq : m.predict_proba df = .ok probs) :
    predictCsvBranch m df =
      .ok (augmentedDf df preds probs, branchEffects (augmentedDf df preds probs)) := by
  simp [predictCsvBranch, hp, hq, augmentedDf, branchEffects, bind, Except.bind,
    pure, Except.pure]

lemma predictCsvBranch_ok_inv (m : BatchModel) (df out : DataFrame)
    (preds : List Int) (probs : List (ℚ × ℚ)) (effs : List Effect)
    (hp : m.predict df = .ok preds) (hq : m.predict_proba df = .ok probs)
    (hb : predictCsvBranch m df = .ok (out, effs)) :
    out = augmentedDf df preds probs ∧ effs = branchEffects (augmentedDf df preds probs) := by
  rw [predictCsvBranch_ok m df preds probs hp hq] at hb
  have h := Except.ok.inj hb
  exact ⟨(Prod.mk.injEq _ _ _ _ ▸ h).1.symm, (Prod.mk.injEq _ _ _ _ ▸ h).2.symm⟩

lemma augmentedDf_col_prediction (df : DataFrame) (preds : List Int)
    (probs : List (ℚ × ℚ)) :
    (augmentedDf df preds probs).col "prediction" = some (preds.map Value.int) := by
  unfold augmentedDf
  rw [col_assign_ne _ _ _ _ (by decide), col_assign_ne _ _ _ _ (by decide),
    col_assign_self]

lemma augmentedDf_col_risk_label (df : DataFrame) (preds : List Int)
    (probs : List (ℚ × ℚ)) :
    (augmentedDf df preds probs).col "risk_label" = some (preds.map mapRiskLabel) := by
  unfold augmentedDf
  rw [col_assign_ne _ _ _ _ (by decide), col_assign_self]

lemma augmentedDf_col_confidence (df : DataFrame) (preds : List Int)
    (probs : List (ℚ × ℚ)) :
    (augmentedDf df preds probs).col "confidence" =
      some (probs.map fun pr => Value.rat (rowConfidence pr)) := by
  unfold augmentedDf
  rw [col_assign_self]

/-- A successful lookup is the unique code the label maps to. -/
lemma lookup_unique {β : Type} (m : List (String × β)) (l : String) (c : β)
    (h : List.lookup l m = some c) :
    ∃! c' : β, List.lookup l m = some c' :=
  ⟨c, h, fun y hy => by rw [h] at hy; exact (Option.some.inj hy).symm⟩

/-! ## Claims -/

/-- C1: for every valid combination of widget selections, the assembled
feature record is a one-row table with exactly the 11 columns `year`,
`age_group_5_years`, `race_eth`, `first_degree_hx`, `age_menarche`,
`age_first_birth`, `BIRADS_breast_density`, `current_hrt`, `menopaus`,
`bmi_group`, `biophx`, in that order, holding the translated integer values of
the selections. -/
theorem c1_input_df_columns
    (year age_group race_eth first_degree_hx biophx : Int)
    (l1 l2 l3 : String) (birads_density current_hrt bmi_group : Int)
    (hyear : year = 2013) (hag : 1 ≤ age_group ∧ age_group ≤ 13)
    (hrace : race_eth ∈ ([1, 2, 3, 4, 5, 6] : List Int))
    (hfdh : first_degree_hx = 0 ∨ first_degree_hx = 1)
    (hl1 : l1 ∈ age_menarche_options) (hl2 : l2 ∈ age_first_birth_options)
    (hl3 : l3 ∈ menopaus_options)
    (hbir : birads_density ∈ ([1, 2, 3, 4] : List Int))
    (hhrt : current_hrt = 0 ∨ current_hrt = 1)
    (hbmi : bmi_group ∈ ([1, 2, 3, 4] : List Int))
    (hbio : biophx = 0 ∨ biophx = 1) :
    ∃ a b c : Int,
      List.lookup l1 age_menarche_map = some a ∧
      List.lookup l2 age_first_birth_map = some b ∧
      List.lookup l3 menopaus_map = some c ∧
      input_df year age_group race_eth first_degree_hx biophx l1 l2 l3
          birads_density current_hrt bmi_group =
        some [("year", year), ("age_group_5_years", age_group),
              ("race_eth", race_eth), ("first_degree_hx", first_degree_hx),
              ("age_menarche", a), ("age_first_birth", b),
              ("BIRADS_breast_density", birads_density),
              ("current_hrt", current_hrt), ("menopaus", c),
              ("bmi_group", bmi_group), ("biophx", biophx)] ∧
      ([("year", year), ("age_group_5_years", age_group),
        ("race_eth", race_eth), ("first_degree_hx", first_degree_hx),
        ("age_menarche", a), ("age_first_birth", b),
        ("BIRADS_breast_density", birads_density),
        ("current_hrt", current_hrt), ("menopaus", c),
        ("bmi_group", bmi_group), ("biophx", biophx)] :
          List (String × Int)).map Prod.fst = featureColumns := by
  obtain ⟨a, ha⟩ : ∃ a : Int, List.lookup l1 age_menarche_map = some a := by
    simp only [age_menarche_options, List.mem_cons, List.not_mem_nil,
      or_false] at hl1
    rcases hl1 with rfl | rfl | rfl <;> exact ⟨_, rfl⟩
  obtain ⟨b, hb⟩ : ∃ b : Int, List.lookup l2 age_first_birth_map = some b := by
    simp only [age_first_birth_options, List.mem_cons, List.not_mem_nil,
      or_false] at hl2
    rcases hl2 with rfl | rfl | rfl | rfl <;> exact ⟨_, rfl⟩
  obtain ⟨c, hc⟩ : ∃ c : Int, List.lookup l3 menopaus_map = some c := by
    simp only [menopaus_options, List.mem_cons, List.not_mem_nil,
      or_false] at hl3
    rcases hl3 with rfl | rfl | rfl <;> exact ⟨_, rfl⟩
  refine ⟨a, b, c, ha, hb, hc, ?_, by simp [featureColumns]⟩
  simp [input_df, ha, hb, hc, bind, Option.bind]

/-- Witness for C1: the spec's example input (`year` 2013, age group 7,
race 1, no family history, menarche "Normal", first birth "Normal",
density 2, no HRT, menopause "Pre", BMI group 2, no biopsy) assembles exactly
the one-row table (2013, 7, 1, 0, 2, 2, 2, 0, 1, 2, 0). -/
theorem c1_input_df_columns_witness :
    input_df 2013 7 1 0 0 "Normal" "Normal" "Pre" 2 0 2 =
      some [("year", 2013), ("age_group_5_years", 7), ("race_eth", 1),
            ("first_degree_hx", 0), ("age_menarche", 2), ("age_first_birth", 2),
            ("BIRADS_breast_density", 2), ("current_hrt", 0), ("menopaus", 1),
            ("bmi_group", 2), ("biophx", 0)] := by
  obtain ⟨a, b, c, ha, hb, hc, hdf, -⟩ :=
    c1_input_df_columns 2013 7 1 0 0 "Normal" "Normal" "Pre" 2 0 2
      rfl (by decide) (by decide) (Or.inl rfl) (by decide) (by decide)
      (by decide) (by decide) (Or.inl rfl) (by decide) (Or.inl rfl)
  have e1 : List.lookup "Normal" age_menarche_map = some (2 : Int) := rfl
  have e2 : List.lookup "Normal" age_first_birth_map = some (2 : Int) := rfl
  have e3 : List.lookup "Pre" menopaus_map = some (1 : Int) := rfl
  rw [e1] at ha; rw [e2] at hb; rw [e3] at hc
  cases Option.some.inj ha
  cases Option.some.inj hb
  cases Option.some.inj hc
  exact hdf

/-- C2: each label-to-code lookup table is total on its widget's label set
(every selectable label maps to exactly one integer code) and injective, with
"Early" mapping to 1 for age at menarche and "Normal" mapping to 2 for age at
first birth. -/
theorem c2_lookup_tables_total_injective :
    (∀ l ∈ age_menarche_options, ∃! c : Int, List.lookup l age_menarche_map = some c) ∧
    (∀ l ∈ age_first_birth_options, ∃! c : Int, List.lookup l age_first_birth_map = some c) ∧
    (∀ l ∈ menopaus_options, ∃! c : Int, List.lookup l menopaus_map = some c) ∧
    (∀ l1 ∈ age_menarche_options, ∀ l2 ∈ age_menarche_options,
      List.lookup l1 age_menarche_map = List.lookup l2 age_menarche_map → l1 = l2) ∧
    (∀ l1 ∈ age_first_birth_options, ∀ l2 ∈ age_first_birth_options,
      List.lookup l1 age_first_birth_map = List.lookup l2 age_first_birth_map → l1 = l2) ∧
    (∀ l1 ∈ menopaus_options, ∀ l2 ∈ menopaus_options,
      List.lookup l1 menopaus_map = List.lookup l2 menopaus_map → l1 = l2) ∧
    List.lookup "Early" age_menarche_map = some 1 ∧
    List.lookup "Normal" age_first_birth_map = some 2 := by
  refine ⟨?_, ?_, ?_, by decide, by decide, by decide, rfl, rfl⟩
  · intro l hl
    simp only [age_menarche_options, List.mem_cons, List.not_mem_nil,
      or_false] at hl
    rcases hl with rfl | rfl | rfl <;> exact lookup_unique _ _ _ rfl
  · intro l hl
    simp only [age_first_birth_options, List.mem_cons, List.not_mem_nil,
      or_false] at hl
    rcases hl with rfl | rfl | rfl | rfl <;> exact lookup_unique _ _ _ rfl
  · intro l hl
    simp only [menopaus_options, List.mem_cons, List.not_mem_nil,
      or_false] at hl
    rcases hl with rfl | rfl | rfl <;> exact lookup_unique _ _ _ rfl

/-- Witness for C2: the label "Early" of the menarche widget maps to exactly
one code. -/
theorem c2_lookup_tables_total_injective_witness :
    ∃! c : Int, List.lookup "Early" age_menarche_map = some c :=
  c2_lookup_tables_total_injective.1 "Early" (by decide)

/-- A test model that always succeeds: it predicts 0 for every row with
probability pair (1, 0). The real pipeline is opaque, so any total behaviour
is an admissible instance of `BatchModel`. -/
def constModel : BatchModel where
  predict df := .ok (List.replicate df.nrows 0)
  predict_proba df := .ok (List.replicate df.nrows (1, 0))

/-- Modelled from the spec: the serialized pipeline `xgb_pipeline.pkl` is not
in the repository. Per the spec, the model library raises on a column-contract
mismatch ("No validation of this contract occurs beyond whatever the model
library raises on mismatch"). This test model raises (errors) whenever the
frame's columns differ from the 11 expected feature columns, and otherwise
predicts 0 per row with probability pair (1, 0). -/
def schemaModel : BatchModel where
  predict df :=
    if df.columns = featureColumns then .ok (List.replicate df.nrows 0)
    else .error "feature names mismatch"
  predict_proba df :=
    if df.columns = featureColumns then .ok (List.replicate df.nrows (1, 0))
    else .error "feature names mismatch"

/-- An uploaded CSV that has only a `year` column: 10 of the 11 expected
feature columns are missing. -/
def missingColumnCsv : DataFrame := ⟨[("year", [Value.int 2013])]⟩

/-- The augmented frame `constModel` produces from `missingColumnCsv`. -/
def sampleAug : DataFrame :=
  ⟨[("year", [Value.int 2013]), ("prediction", [Value.int 0]),
    ("risk_label", [Value.str "Low Risk"]), ("confidence", [Value.rat 1])]⟩

/-- C3: in the batch output, for every row whose prediction value is 0 or 1,
the row's `risk_label` is "Low Risk" exactly when its prediction is 0 and
"High Risk" exactly when its prediction is 1. -/
theorem c3_risk_label_consistent (m : BatchModel) (df out : DataFrame)
    (preds : List Int) (probs : List (ℚ × ℚ)) (effs : List Effect)
    (hp : m.predict df = .ok preds) (hq : m.predict_proba df = .ok probs)
    (hb : predictCsvBranch m df = .ok (out, effs)) :
    out.col "prediction" = some (preds.map Value.int) ∧
    out.col "risk_label" = some (preds.map mapRiskLabel) ∧
    ∀ (i : Nat) (p : Int), preds[i]? = some p → (p = 0 ∨ p = 1) →
      (preds.map Value.int)[i]? = some (Value.int p) ∧
      (preds.map mapRiskLabel)[i]? = some (mapRiskLabel p) ∧
      (p = 0 ↔ mapRiskLabel p = Value.str "Low Risk") ∧
      (p = 1 ↔ mapRiskLabel p = Value.str "High Risk") := by
  obtain ⟨rfl, -⟩ := predictCsvBranch_ok_inv m df out preds probs effs hp hq hb
  refine ⟨augmentedDf_col_prediction df preds probs,
    augmentedDf_col_risk_label df preds probs, ?_⟩
  intro i p hi hp01
  refine ⟨by simp [List.getElem?_map, hi], by simp [List.getElem?_map, hi], ?_, ?_⟩
  · rcases hp01 with rfl | rfl <;> simp [mapRiskLabel, riskLabelDict, List.lookup]
  · rcases hp01 with rfl | rfl <;> simp [mapRiskLabel, riskLabelDict, List.lookup]

/-- Witness for C3: `constModel` on the one-row upload yields prediction 0 and
risk label "Low Risk" for that row. -/
theorem c3_risk_label_consistent_witness :
    (0 : Int) = 0 ↔ mapRiskLabel 0 = Value.str "Low Risk" :=
  ((c3_risk_label_consistent constModel missingColumnCsv sampleAug [0] [(1, 0)]
      (branchEffects sampleAug) rfl rfl (by rfl)).2.2 0 0 rfl (Or.inl rfl)).2.2.1

/-- C4: in the batch output, every row's appended confidence cell is the
maximum of the two class probabilities `predict_proba` returned for that
row. -/
theorem c4_confidence_is_row_max (m : BatchModel) (df out : DataFrame)
    (preds : List Int) (probs : List (ℚ × ℚ)) (effs : List Effect)
    (hp : m.predict df = .ok preds) (hq : m.predict_proba df = .ok probs)
    (hb : predictCsvBranch m df = .ok (out, effs)) :
    out.col "confidence" = some (probs.map fun pr => Value.rat (rowConfidence pr)) ∧
    ∀ (i : Nat) (pr : ℚ × ℚ), probs[i]? = some pr →
      (probs.map fun pr => Value.rat (rowConfidence pr))[i]? =
        some (Value.rat (max pr.1 pr.2)) := by
  obtain ⟨rfl, -⟩ := predictCsvBranch_ok_inv m df out preds probs effs hp hq hb
  refine ⟨augmentedDf_col_confidence df preds probs, ?_⟩
  intro i pr hi
  simp [List.getElem?_map, hi, rowConfidence]

/-- Witness for C4: in the `constModel` run on the one-row upload, the
confidence cell of row 0 is max(1, 0) = 1. -/
theorem c4_confidence_is_row_max_witness :
    sampleAug.col "confidence" =
      some ([((1 : ℚ), (0 : ℚ))].map fun pr => Value.rat (rowConfidence pr)) :=
  (c4_confidence_is_row_max constModel missingColumnCsv sampleAug [0] [(1, 0)]
      (branchEffects sampleAug) rfl rfl (by rfl)).1

/-- Counterexample to C5 as stated: at prediction value 2 the single-record
path displays "Low Risk" (its `else` branch), while the batch map
`{0: "Low Risk", 1: "High Risk"}` leaves the row's `risk_label` as NaN, which
is not "Low Risk". -/
theorem c5_counterexample :
    singleRecordLabel 2 = "Low Risk" ∧ mapRiskLabel 2 = Value.na ∧
      mapRiskLabel 2 ≠ Value.str (singleRecordLabel 2) := by
  refine ⟨rfl, rfl, ?_⟩
  intro h
  exact Value.noConfusion h

/-- C5 (amended): for every prediction value in {0, 1}, the single-record
path and the batch path assign the same risk label: "Low Risk" for 0 and
"High Risk" for 1. -/
theorem c5_label_conventions_agree (p : Int) (h : p = 0 ∨ p = 1) :
    mapRiskLabel p = Value.str (singleRecordLabel p) := by
  rcases h with rfl | rfl <;> rfl

/-- Witness for C5: at prediction value 1 both paths give "High Risk". -/
theorem c5_label_conventions_agree_witness :
    mapRiskLabel 1 = Value.str (singleRecordLabel 1) :=
  c5_label_conventions_agree 1 (Or.inr rfl)

/-- C6: any exception anywhere in the batch path is caught by the single
top-level handler and surfaced as a user-visible "CSV Error" message that
contains the stringified exception, never as a crash. -/
theorem c6_csv_error_catchall (m : BatchModel)
    (parseResult : Except String DataFrame) (e : String)
    (h : batchPipeline m parseResult = .error e) :
    runPredictCsv m parseResult = .errorMessage ("❌ CSV Error: " ++ e) ∧
    (∀ df effs, runPredictCsv m parseResult ≠ .results df effs) ∧
    ∃ pre, "❌ CSV Error: " ++ e = pre ++ e := by
  refine ⟨by simp [runPredictCsv, h], ?_, ⟨"❌ CSV Error: ", rfl⟩⟩
  intro df effs hc
  rw [runPredictCsv, h] at hc
  exact UIOutcome.noConfusion hc

/-- Witness for C6: uploading a CSV with missing columns makes the
schema-checking model raise, and the user sees a caught "CSV Error" message
rather than a crash. -/
theorem c6_csv_error_catchall_witness :
    runPredictCsv schemaModel (.ok missingColumnCsv) =
      .errorMessage ("❌ CSV Error: " ++ "feature names mismatch") :=
  (c6_csv_error_catchall schemaModel (.ok missingColumnCsv)
    "feature names mismatch" (by rfl)).1

/-- C9: batch failure is atomic — if `predict` raises, or `predict` succeeds
and `predict_proba` raises, the branch produces no augmented table and no
effects (no column assigned, no file written, no download offered); the
caught error message is the only observable outcome. -/
theorem c9_batch_failure_atomic (m : BatchModel) (df : DataFrame) (e : String)
    (h : m.predict df = .error e ∨
      ∃ preds, m.predict df = .ok preds ∧ m.predict_proba df = .error e) :
    predictCsvBranch m df = .error e ∧
    (∀ out effs, predictCsvBranch m df ≠ .ok (out, effs)) ∧
    runPredictCsv m (.ok df) = .errorMessage ("❌ CSV Error: " ++ e) := by
  have hbr : predictCsvBranch m df = .error e := by
    rcases h with h | ⟨preds, hp, hq⟩
    · simp [predictCsvBranch, h, bind, Except.bind]
    · simp [predictCsvBranch, hp, hq, bind, Except.bind]
  refine ⟨hbr, ?_, ?_⟩
  · intro out effs hc
    rw [hbr] at hc
    exact Except.noConfusion hc
  · simp [runPredictCsv, batchPipeline, hbr, bind, Except.bind]

/-- Witness for C9: when the schema-checking model raises on the upload with
missing columns, the branch yields no table and no effects, only the error. -/
theorem c9_batch_failure_atomic_witness :
    predictCsvBranch schemaModel missingColumnCsv = .error "feature names mismatch" :=
  (c9_batch_failure_atomic schemaModel missingColumnCsv "feature names mismatch"
    (Or.inl (by rfl))).1

/-- An uploaded CSV that already contains a column named `prediction`. -/
def collidingCsv : DataFrame := ⟨[("prediction", [Value.int 5])]⟩

/-- Counterexample to C7 as stated: an upload that already has a `prediction`
column. The batch succeeds, but pandas column assignment overwrites that
column in place, so the output columns are not the input columns followed by
the three appended names, and the original `prediction` cells are changed. -/
theorem c7_counterexample :
    (predictCsvBranch constModel collidingCsv).toOption.map (fun r => r.1.columns) =
      some ["prediction", "risk_label", "confidence"] ∧
    collidingCsv.columns ++ ["prediction", "risk_label", "confidence"] =
      ["prediction", "prediction", "risk_label", "confidence"] ∧
    (["prediction", "risk_label", "confidence"] : List String) ≠
      ["prediction", "prediction", "risk_label", "confidence"] ∧
    (predictCsvBranch constModel collidingCsv).toOption.map
        (fun r => r.1.col "prediction") = some (some [Value.int 0]) ∧
    collidingCsv.col "prediction" = some [Value.int 5] := by
  exact ⟨rfl, rfl, by decide, rfl, rfl⟩

/-- C7 (amended): when batch prediction succeeds and the uploaded file has no
column named `prediction`, `risk_label` or `confidence`, the output table is
the uploaded columns unchanged followed by exactly those three appended
columns. -/
theorem c7_output_appends_columns (m : BatchModel) (df out : DataFrame)
    (preds : List Int) (probs : List (ℚ × ℚ)) (effs : List Effect)
    (h1 : "prediction" ∉ df.columns) (h2 : "risk_label" ∉ df.columns)
    (h3 : "confidence" ∉ df.columns)
    (hp : m.predict df = .ok preds) (hq : m.predict_proba df = .ok probs)
    (hb : predictCsvBranch m df = .ok (out, effs)) :
    out.cols = df.cols ++
      [("prediction", preds.map Value.int),
       ("risk_label", preds.map mapRiskLabel),
       ("confidence", probs.map fun pr => Value.rat (rowConfidence pr))] ∧
    out.columns = df.columns ++ ["prediction", "risk_label", "confidence"] := by
  obtain ⟨rfl, -⟩ := predictCsvBranch_ok_inv m df out preds probs effs hp hq hb
  have e1 : (df.assign "prediction" (preds.map Value.int)).cols =
      df.cols ++ [("prediction", preds.map Value.int)] :=
    assign_cols_of_not_mem df _ _ h1
  have c1 : (df.assign "prediction" (preds.map Value.int)).columns =
      df.columns ++ ["prediction"] := by
    show (df.assign "prediction" (preds.map Value.int)).cols.map Prod.fst = _
    rw [e1, List.map_append]
    rfl
  have m2 : "risk_label" ∉ (df.assign "prediction" (preds.map Value.int)).columns := by
    rw [c1]
    intro hmem
    rcases List.mem_append.mp hmem with hmem | hmem
    · exact h2 hmem
    · revert hmem
      decide
  have e2 : ((df.assign "prediction" (preds.map Value.int)).assign
        "risk_label" (preds.map mapRiskLabel)).cols =
      (df.assign "prediction" (preds.map Value.int)).cols ++
        [("risk_label", preds.map mapRiskLabel)] :=
    assign_cols_of_not_mem _ _ _ m2
  have c2 : ((df.assign "prediction" (preds.map Value.int)).assign
        "risk_label" (preds.map mapRiskLabel)).columns =
      df.columns ++ ["prediction", "risk_label"] := by
    show ((df.assign "prediction" (preds.map Value.int)).assign
        "risk_label" (preds.map mapRiskLabel)).cols.map Prod.fst = _
    rw [e2, List.map_append, e1, List.map_append, List.append_assoc]
    rfl
  have m3 : "confidence" ∉ ((df.assign "prediction" (preds.map Value.int)).assign
      "risk_label" (preds.map mapRiskLabel)).columns := by
    rw [c2]
    intro hmem
    rcases List.mem_append.mp hmem with hmem | hmem
    · exact h3 hmem
    · revert hmem
      decide
  have e3 : (augmentedDf df preds probs).cols =
      ((df.assign "prediction" (preds.map Value.int)).assign
        "risk_label" (preds.map mapRiskLabel)).cols ++
        [("confidence", probs.map fun pr => Value.rat (rowConfidence pr))] :=
    assign_cols_of_not_mem _ _ _ m3
  have ecols : (augmentedDf df preds probs).cols = df.cols ++
      [("prediction", preds.map Value.int),
       ("risk_label", preds.map mapRiskLabel),
       ("confidence", probs.map fun pr => Value.rat (rowConfidence pr))] := by
    rw [e3, e2, e1, List.append_assoc, List.append_assoc]
    rfl
  refine ⟨ecols, ?_⟩
  show (augmentedDf df preds probs).cols.map Prod.fst = _
  rw [ecols, List.map_append]
  rfl

/-- Witness for C7 (amended): the clean one-column upload gains exactly the
three appended columns after its own. -/
theorem c7_output_appends_columns_witness :
    sampleAug.cols = missingColumnCsv.cols ++
      [("prediction", [Value.int 0]), ("risk_label", [Value.str "Low Risk"]),
       ("confidence", [Value.rat 1])] :=
  (c7_output_appends_columns constModel missingColumnCsv sampleAug [0] [(1, 0)]
    (branchEffects sampleAug) (by decide) (by decide) (by decide)
    rfl rfl (by rfl)).1

/-- C8: on batch success the bytes written to `unknown_predictions.csv` and
the bytes offered by the download action are the same index-free CSV
serialization of the same augmented table. -/
theorem c8_write_download_same (m : BatchModel) (df out : DataFrame)
    (preds : List Int) (probs : List (ℚ × ℚ)) (effs : List Effect)
    (hp : m.predict df = .ok preds) (hq : m.predict_proba df = .ok probs)
    (hb : predictCsvBranch m df = .ok (out, effs)) :
    effs = [Effect.writeFile "unknown_predictions.csv" out.toCsv,
            Effect.showTable out,
            Effect.downloadButton "unknown_predictions.csv" out.toCsv] ∧
    ∀ fn s fn' s', Effect.writeFile fn s ∈ effs →
      Effect.downloadButton fn' s' ∈ effs →
      fn = "unknown_predictions.csv" ∧ fn' = "unknown_predictions.csv" ∧
      s = out.toCsv ∧ s' = out.toCsv ∧ s = s' := by
  obtain ⟨rfl, rfl⟩ := predictCsvBranch_ok_inv m df out preds probs effs hp hq hb
  refine ⟨rfl, ?_⟩
  intro fn s fn' s' hw hd
  simp only [branchEffects, List.mem_cons, List.not_mem_nil, or_false] at hw hd
  rcases hw with hw | hw | hw
  · rcases hd with hd | hd | hd
    · exact Effect.noConfusion hd
    · exact Effect.noConfusion hd
    · injection hw with ew1 ew2
      injection hd with ed1 ed2
      exact ⟨ew1, ed1, ew2, ed2, ew2.trans ed2.symm⟩
  · exact Effect.noConfusion hw
  · exact Effect.noConfusion hw

/-- Witness for C8: in the `constModel` run on the one-column upload both the
file write and the download carry the same serialization of the augmented
table. -/
theorem c8_write_download_same_witness :
    Effect.writeFile "unknown_predictions.csv" sampleAug.toCsv ∈
        branchEffects sampleAug ∧
    Effect.downloadButton "unknown_predictions.csv" sampleAug.toCsv ∈
        branchEffects sampleAug ∧
    sampleAug.toCsv = sampleAug.toCsv := by
  have h := (c8_write_download_same constModel missingColumnCsv sampleAug [0]
      [(1, 0)] (branchEffects sampleAug) rfl rfl (by rfl)).2
      "unknown_predictions.csv" sampleAug.toCsv
      "unknown_predictions.csv" sampleAug.toCsv
      (by simp [branchEffects]) (by simp [branchEffects])
  exact ⟨by simp [branchEffects], by simp [branchEffects], h.2.2.2.2⟩

/-- C10: for every batch row whose probability pair is nonnegative and sums
to 1, the appended confidence (the row-wise maximum) is at least 1/2. -/
theorem c10_confidence_at_least_half (m : BatchModel) (df out : DataFrame)
    (preds : List Int) (probs : List (ℚ × ℚ)) (effs : List Effect)
    (hp : m.predict df = .ok preds) (hq : m.predict_proba df = .ok probs)
    (hb : predictCsvBranch m df = .ok (out, effs))
    (i : Nat) (pr : ℚ × ℚ) (hi : probs[i]? = some pr)
    (h0 : 0 ≤ pr.1) (h1 : 0 ≤ pr.2) (hs : pr.1 + pr.2 = 1) :
    out.col "confidence" = some (probs.map fun q => Value.rat (rowConfidence q)) ∧
    (probs.map fun q => Value.rat (rowConfidence q))[i]? =
      some (Value.rat (rowConfidence pr)) ∧
    1 / 2 ≤ rowConfidence pr := by
  obtain ⟨rfl, -⟩ := predictCsvBranch_ok_inv m df out preds probs effs hp hq hb
  refine ⟨augmentedDf_col_confidence df preds probs,
    by simp [List.getElem?_map, hi], ?_⟩
  unfold rowConfidence
  rcases le_total pr.1 pr.2 with hle | hle
  · rw [max_eq_right hle]
    linarith
  · rw [max_eq_left hle]
    linarith

/-- Witness for C10: the probability pair (1, 0) is nonnegative, sums to 1,
and its row confidence max(1, 0) = 1 is at least 1/2. -/
theorem c10_confidence_at_least_half_witness :
    (1 : ℚ) / 2 ≤ rowConfidence (1, 0) :=
  (c10_confidence_at_least_half constModel missingColumnCsv sampleAug [0]
    [(1, 0)] (branchEffects sampleAug) rfl rfl (by rfl) 0 (1, 0) rfl
    (by norm_num) (le_refl 0) (by norm_num)).2.2

end BreastCancerApp
